import Mathlib

/-
  Verification of the api-diff-comment pipeline (src/src/main.rs).

  The development shallowly embeds the program:
  * `Symbol`, `PublicApiDiff`, `PublicApiDiff.between` model the symbol
    documents and the diff engine.  The diff engine itself lives in the
    external `public_api` crate (the program calls
    `public_api::diff::PublicApiDiff::between`), so its algorithm is
    modelled from the specification, section 4.4.
  * `TemplateData` / `mkTemplateData` embed the result projection of
    `main` (src/src/main.rs lines 153-170).
  * `build_pubapi_for_reference` embeds the function of the same name
    (src/src/main.rs lines 194-262).  External effects (git commands,
    rustdoc-json extraction) are resolved by a `BranchEnv` environment,
    and the function returns the trace of external commands it actually
    ran, so that frame and cleanup properties can be stated over
    `RepoFsState`.
  * `mainRun` embeds `main` (src/src/main.rs lines 65-192) over a
    `MainEnv` environment; `OpenOptions.openFile` models the standard
    library's `std::fs::OpenOptions::open` access/creation-mode checks.
-/

namespace ApiDiffComment

/-- Modelled from the spec: a `Symbol` (a `public_api::PublicItem`, from the
external `public_api` crate, not under src/) is identified by a stable path
and carries a signature representation; identity-equal iff paths match,
content-equal iff additionally the signatures match (spec section 3). -/
structure Symbol where
  path : String
  sig : String
deriving DecidableEq, Repr

/-- Modelled from the spec: the canonical display string of a symbol
(`PublicItem`'s `Display` rendering), used by the result projection. -/
def Symbol.display (s : Symbol) : String := s.path ++ ": " ++ s.sig

/-- A `SymbolDocument`: the ordered collection of public symbols of one
revision (spec section 3). -/
abbrev SymbolDocument := List Symbol

/-- A changed entry of the diff: the old and the new symbol
(`public_api::diff::ChangedPublicItem`). -/
structure ChangedSymbol where
  old : Symbol
  new : Symbol
deriving DecidableEq, Repr

/-- The diff result (`public_api::diff::PublicApiDiff`): added, removed and
changed symbols. -/
structure PublicApiDiff where
  added : List Symbol
  removed : List Symbol
  changed : List ChangedSymbol
deriving DecidableEq, Repr

/-- Whether some symbol of `doc` has path `p`. -/
def hasPath (doc : SymbolDocument) (p : String) : Bool :=
  doc.any (fun s => s.path == p)

/-- Modelled from the spec: the changed entries of the diff (spec section
4.4).  For every path present in both documents the pair of first
occurrences (first-seen correspondence, spec section 9) is compared; if the
signatures differ the pair is emitted, in the base document's path order.
`seen` carries the paths already handled. -/
def changedPairs : SymbolDocument → SymbolDocument → List String → List ChangedSymbol
  | [], _, _ => []
  | b :: bs, target, seen =>
    if b.path ∈ seen then
      changedPairs bs target seen
    else
      match target.find? (fun t => t.path == b.path) with
      | some t =>
        if b.sig = t.sig then changedPairs bs target (b.path :: seen)
        else ⟨b, t⟩ :: changedPairs bs target (b.path :: seen)
      | none => changedPairs bs target (b.path :: seen)

/-- Modelled from the spec: the Diff Engine
(`public_api::diff::PublicApiDiff::between`, external crate, not under
src/), following spec section 4.4: symbols of `target` whose path is absent
from `base` are added, symbols of `base` whose path is absent from `target`
are removed, and paths present in both with differing signatures are
changed; emitted sequences preserve the source document's order. -/
def PublicApiDiff.between (base target : SymbolDocument) : PublicApiDiff :=
  { added := target.filter (fun t => !(hasPath base t.path))
  , removed := base.filter (fun b => !(hasPath target b.path))
  , changed := changedPairs base target [] }

/-- A changed entry of the render-ready projection (src/src/main.rs lines
59-63): the old and new display strings. -/
structure ChangedItem where
  old : String
  new : String
deriving DecidableEq, Repr

/-- The render-ready projection of the diff (src/src/main.rs lines 52-57). -/
structure TemplateData where
  added : List String
  removed : List String
  changed : List ChangedItem
deriving DecidableEq, Repr

/-- The result projection of `main` (src/src/main.rs lines 153-170): each
symbol of the diff is rendered to its display string, preserving order, and
each changed entry carries the old and the new rendering. -/
def mkTemplateData (diff : PublicApiDiff) : TemplateData :=
  { added := diff.added.map (fun itm => itm.display)
  , removed := diff.removed.map (fun itm => itm.display)
  , changed := diff.changed.map (fun itm => { old := itm.old.display, new := itm.new.display }) }

/-- The outcome of one spawned git command: spawning the child failed,
waiting on the child failed, the child exited with a failure status, or
everything succeeded (src/src/main.rs runs each git command as
spawn / wait / success-check). -/
inductive CmdResult
  | spawnErr
  | waitErr
  | exitFail
  | ok
deriving DecidableEq, Repr

/-- An external command actually executed by `build_pubapi_for_reference`,
with whether it reported success.  `gitCheckout` is run in the caller's
repository directory (src/src/main.rs lines 217-230 set
`cmd.current_dir(cwd)`). -/
inductive Event
  | gitWorktreeAdd (wt reference : String) (success : Bool)
  | gitCheckout (reference : String) (success : Bool)
  | gitWorktreeRemove (wt : String) (success : Bool)
  | extractionRun
deriving DecidableEq, Repr

/-- The environment deciding the external effects of one branch task: the
outcomes of the three git commands, of the rustdoc-json extraction and of
the public-api parse, and the symbol document the parse would yield. -/
structure BranchEnv where
  addRes : CmdResult
  checkoutRes : CmdResult
  removeRes : CmdResult
  extractOk : Bool
  parseOk : Bool
  doc : SymbolDocument
deriving Repr

/-- One spawn / wait / success-check block of `build_pubapi_for_reference`:
the result and the event actually executed (none when spawning failed,
since then no child process ran). -/
def runGitCmd (res : CmdResult) (ev : Bool → Event)
    (spawnMsg waitMsg failMsg : String) : Except String Unit × List Event :=
  match res with
  | .spawnErr => (.error spawnMsg, [])
  | .waitErr => (.error waitMsg, [ev false])
  | .exitFail => (.error failMsg, [ev false])
  | .ok => (.ok (), [ev true])

/-- Embedding of `build_pubapi_for_reference` (src/src/main.rs lines
194-262).  The worktree path arrives as `Option String`, the value of
`wt_path.to_str()` (line 199); `none` models a non-UTF-8 path.  The
function mirrors the source's order: worktree add, checkout of the
reference in the caller's directory, extraction (its error kept, not yet
propagated), worktree remove, then propagation of the extraction error and
the parse.  It returns the result together with the trace of executed
external commands. -/
def build_pubapi_for_reference (env : BranchEnv) (reference : String)
    (wtPath : Option String) : Except String SymbolDocument × List Event :=
  match wtPath with
  | none => (.error "Path is not UTF8", [])
  | some wt =>
    let add := runGitCmd env.addRes (Event.gitWorktreeAdd wt reference)
      "Failed to spawn git-worktree" "Failed to run git-worktree"
      ("git-worktree " ++ wt ++ " " ++ reference ++ " failed")
    match add.1 with
    | .error e => (.error e, add.2)
    | .ok _ =>
      let co := runGitCmd env.checkoutRes (Event.gitCheckout reference)
        "Failed to spawn git-checkout" "Failed to run git-checkout"
        ("git-checkout " ++ reference ++ " failed")
      match co.1 with
      | .error e => (.error e, add.2 ++ co.2)
      | .ok _ =>
        let json : Except String Unit :=
          if env.extractOk then .ok () else .error "rustdoc-json build failed"
        let extractEvs := [Event.extractionRun]
        let rm := runGitCmd env.removeRes (Event.gitWorktreeRemove wt)
          "Failed to spawn git-worktree" "Failed to run git-worktree"
          ("git-worktree remove -f " ++ wt ++ " failed")
        match rm.1 with
        | .error e => (.error e, add.2 ++ co.2 ++ extractEvs ++ rm.2)
        | .ok _ =>
          match json with
          | .error e => (.error e, add.2 ++ co.2 ++ extractEvs ++ rm.2)
          | .ok _ =>
            if env.parseOk then (.ok env.doc, add.2 ++ co.2 ++ extractEvs ++ rm.2)
            else (.error "building public api from rustdoc json failed",
              add.2 ++ co.2 ++ extractEvs ++ rm.2)

/-- The observable state of the caller's repository and temporary root:
the checked-out HEAD of the main working tree, and the worktree
directories currently present. -/
structure RepoFsState where
  head : String
  worktrees : List String
deriving DecidableEq, Repr

/-- The effect of one executed external command on the repository state: a
successful `git worktree add` creates the worktree directory, a successful
`git checkout` (run in the caller's repository) moves the caller's HEAD,
a successful `git worktree remove` deletes the directory. -/
def applyEvent (st : RepoFsState) : Event → RepoFsState
  | .gitWorktreeAdd wt _ success =>
    if success then { st with worktrees := st.worktrees ++ [wt] } else st
  | .gitCheckout reference success =>
    if success then { st with head := reference } else st
  | .gitWorktreeRemove wt success =>
    if success then { st with worktrees := st.worktrees.filter (fun w => w != wt) } else st
  | .extractionRun => st

/-- Folding a trace of executed commands over the repository state. -/
def applyEvents (st : RepoFsState) (evs : List Event) : RepoFsState :=
  evs.foldl applyEvent st

/-- The options of `std::fs::OpenOptions` set by `main` when opening the
output file (src/src/main.rs lines 98-101): all flags default to false, as
in `OpenOptions::new()`. -/
structure OpenOptions where
  read : Bool := false
  write : Bool := false
  append : Bool := false
  truncate : Bool := false
  create : Bool := false
  create_new : Bool := false
deriving DecidableEq, Repr

/-- The standard library's `OpenOptions::open` access/creation-mode
validation: creation or truncation flags without write (or append) access
are rejected as invalid input before the filesystem is touched; truncation
together with append (without create_new) is rejected; some access mode
must be chosen; `create_new` fails when the file exists; without a
creation flag a missing file cannot be opened.  Returns the result and
whether the call modified (created or truncated) the file. -/
def OpenOptions.openFile (o : OpenOptions) (fileExists : Bool) :
    Except String Unit × Bool :=
  if (o.create || o.truncate || o.create_new) && !o.write && !o.append then
    (.error "invalid input: creation or truncation without write access", false)
  else if o.truncate && o.append && !o.create_new then
    (.error "invalid input: truncate together with append", false)
  else if !o.read && !o.write && !o.append then
    (.error "invalid input: no access mode", false)
  else if o.create_new && fileExists then
    (.error "file already exists", false)
  else if !fileExists && !o.create && !o.create_new then
    (.error "no such file", false)
  else
    (.ok (), (fileExists && o.truncate) || (!fileExists && (o.create || o.create_new)))

/-- The open options the source uses for the output file
(src/src/main.rs lines 98-100): `create_new(true).truncate(true)`, with no
read, write or append access requested. -/
def outputOpenOptions : OpenOptions :=
  { create_new := true, truncate := true }

/-- The command-line arguments of the program that the embedded `main`
consumes (src/src/main.rs lines 9-34); the template path and verbosity are
plumbing whose outcomes live in `MainEnv`. -/
structure Args where
  base : String
  target : String
  output : Option String
  tempdir : Option String
deriving Repr

/-- The environment deciding the external effects of `main`: template
reading and registration, whether a file already exists at the output
path, temporary-directory creation, the two branch environments, whether
each thread could be joined (false models abnormal thread termination),
and rendering / output writing. -/
structure MainEnv where
  templateReadOk : Bool
  templateRegisterOk : Bool
  outputExists : Bool
  generatedTempdir : String
  tempdirCreateOk : Bool
  baseEnv : BranchEnv
  targetEnv : BranchEnv
  baseJoinOk : Bool
  targetJoinOk : Bool
  renderOk : Bool
  writeOk : Bool
deriving Repr

/-- The orchestration-level steps of `main`, in the order the source
performs them. -/
inductive MEvent
  | readTemplate
  | openOutput (path : String)
  | createTempdir
  | spawnBase
  | spawnTarget
  | joinBase
  | joinTarget
  | runDiff
  | render
  | writeOutputFile (path : String)
  | writeStdout
deriving DecidableEq, Repr

/-- The outcome of one embedded run of `main`: the process result, the
orchestration events that happened, the external-command traces of the two
branch tasks, and whether the output file was modified. -/
structure RunResult where
  result : Except String Unit
  events : List MEvent
  baseTrace : List Event
  targetTrace : List Event
  outputFileModified : Bool
deriving Repr

/-- Joining one spawned thread (src/src/main.rs lines 141-149): a join
failure (abnormal thread termination) becomes the fixed join error, else
the thread's own result is passed through. -/
def joinThread (joinOk : Bool) (r : Except String SymbolDocument) :
    Except String SymbolDocument :=
  if joinOk then r else .error "Failed to join thread"

/-- The tail of `main` from the worktree-path computation on
(src/src/main.rs lines 119-191), given the temporary-root path `td`.  Both
branch bodies run concurrently between spawn and join; their traces are
reported separately in `baseTrace` / `targetTrace`.  Joining the base
thread first mirrors lines 141-149: when the base join yields an error,
the try operator returns from `main` there, so the target thread's handle
is dropped without being joined.  Its `events` field holds only the steps
of this tail; callers prepend the earlier steps. -/
def mainWithTempdir (env : MainEnv) (args : Args) (outputOpened : Option String)
    (modified : Bool) (td : String) : RunResult :=
  let base_wt_path := td ++ "/base"
  let target_wt_path := td ++ "/target"
  let baseRun := build_pubapi_for_reference env.baseEnv args.base (some base_wt_path)
  let targetRun := build_pubapi_for_reference env.targetEnv args.target (some target_wt_path)
  match joinThread env.baseJoinOk baseRun.1 with
  | .error e =>
    { result := .error e
    , events := [.spawnBase, .spawnTarget, .joinBase]
    , baseTrace := baseRun.2, targetTrace := targetRun.2
    , outputFileModified := modified }
  | .ok baseDoc =>
    match joinThread env.targetJoinOk targetRun.1 with
    | .error e =>
      { result := .error e
      , events := [.spawnBase, .spawnTarget, .joinBase, .joinTarget]
      , baseTrace := baseRun.2, targetTrace := targetRun.2
      , outputFileModified := modified }
    | .ok targetDoc =>
      let _diff := PublicApiDiff.between baseDoc targetDoc
      if env.renderOk then
        match outputOpened with
        | some p =>
          if env.writeOk then
            { result := .ok ()
            , events := [.spawnBase, .spawnTarget, .joinBase, .joinTarget,
                .runDiff, .render, .writeOutputFile p]
            , baseTrace := baseRun.2, targetTrace := targetRun.2
            , outputFileModified := true }
          else
            { result := .error "writing output"
            , events := [.spawnBase, .spawnTarget, .joinBase, .joinTarget,
                .runDiff, .render, .writeOutputFile p]
            , baseTrace := baseRun.2, targetTrace := targetRun.2
            , outputFileModified := modified }
        | none =>
          if env.writeOk then
            { result := .ok ()
            , events := [.spawnBase, .spawnTarget, .joinBase, .joinTarget,
                .runDiff, .render, .writeStdout]
            , baseTrace := baseRun.2, targetTrace := targetRun.2
            , outputFileModified := modified }
          else
            { result := .error "writing output"
            , events := [.spawnBase, .spawnTarget, .joinBase, .joinTarget,
                .runDiff, .render, .writeStdout]
            , baseTrace := baseRun.2, targetTrace := targetRun.2
            , outputFileModified := modified }
      else
        { result := .error "rendering template"
        , events := [.spawnBase, .spawnTarget, .joinBase, .joinTarget,
            .runDiff, .render]
        , baseTrace := baseRun.2, targetTrace := targetRun.2
        , outputFileModified := modified }

/-- The temporary-directory step of `main` (src/src/main.rs lines
107-115): a user-provided root is used as-is, otherwise a fresh private
temporary directory is created (an event), and a creation failure aborts
the run. -/
def mainAfterOpen (env : MainEnv) (args : Args) (outputOpened : Option String)
    (modified : Bool) : RunResult :=
  match args.tempdir with
  | some td => mainWithTempdir env args outputOpened modified td
  | none =>
    if env.tempdirCreateOk then
      let r := mainWithTempdir env args outputOpened modified env.generatedTempdir
      { r with events := MEvent.createTempdir :: r.events }
    else
      { result := .error "failed to create temporary directory"
      , events := [], baseTrace := [], targetTrace := []
      , outputFileModified := modified }

/-- Embedding of `main` (src/src/main.rs lines 65-192), in source order:
template reading and registration, opening the output file when an output
path was given (with the source's open options), the temporary root, then
the spawn / join / diff / render / write tail. -/
def mainRun (env : MainEnv) (args : Args) : RunResult :=
  if env.templateReadOk then
    if env.templateRegisterOk then
      match args.output with
      | some p =>
        let opened := outputOpenOptions.openFile env.outputExists
        match opened.1 with
        | .error e =>
          { result := .error ("opening output file: " ++ e)
          , events := [.readTemplate, .openOutput p]
          , baseTrace := [], targetTrace := []
          , outputFileModified := opened.2 }
        | .ok _ =>
          let r := mainAfterOpen env args (some p) opened.2
          { r with events := MEvent.readTemplate :: MEvent.openOutput p :: r.events }
      | none =>
        let r := mainAfterOpen env args none false
        { r with events := MEvent.readTemplate :: r.events }
    else
      { result := .error "registration of template in the handlebars runtime"
      , events := [.readTemplate], baseTrace := [], targetTrace := []
      , outputFileModified := false }
  else
    { result := .error "reading template file"
    , events := [], baseTrace := [], targetTrace := []
    , outputFileModified := false }

/-- A branch environment in which every external step succeeds. -/
def allOkBranchEnv : BranchEnv :=
  { addRes := .ok, checkoutRes := .ok, removeRes := .ok
  , extractOk := true, parseOk := true, doc := [] }

/-- A branch environment for an invalid reference: git rejects it at the
worktree-add step (the first git command that sees the reference). -/
def invalidRefBranchEnv : BranchEnv :=
  { addRes := .exitFail, checkoutRes := .ok, removeRes := .ok
  , extractOk := true, parseOk := true, doc := [] }

/-- A branch environment in which the worktree-add step succeeds but the
subsequent checkout of the reference fails. -/
def checkoutFailBranchEnv : BranchEnv :=
  { addRes := .ok, checkoutRes := .exitFail, removeRes := .ok
  , extractOk := true, parseOk := true, doc := [] }

/-- A branch environment in which the git commands succeed but the
extraction (rustdoc-json build) fails. -/
def extractFailBranchEnv : BranchEnv :=
  { addRes := .ok, checkoutRes := .ok, removeRes := .ok
  , extractOk := false, parseOk := true, doc := [] }

/-- A main environment whose plumbing (template, tempdir, joins, render,
write) all succeeds, parameterized by the two branch environments. -/
def plumbingOkEnv (baseEnv targetEnv : BranchEnv) : MainEnv :=
  { templateReadOk := true, templateRegisterOk := true
  , outputExists := false, generatedTempdir := "/tmp/gen"
  , tempdirCreateOk := true
  , baseEnv := baseEnv, targetEnv := targetEnv
  , baseJoinOk := true, targetJoinOk := true
  , renderOk := true, writeOk := true }

theorem find?_append_cons_eq {α : Type} (p : α → Bool) (pre : List α) (b : α)
    (bs : List α) (hpre : ∀ x ∈ pre, p x = false) (hb : p b = true) :
    (pre ++ b :: bs).find? p = some b := by
  induction pre with
  | nil => simp [List.find?_cons, hb]
  | cons x xs ih =>
    have hx : p x = false := hpre x (by simp)
    simp only [List.cons_append, List.find?_cons, hx]
    exact ih (fun y hy => hpre y (by simp [hy]))

theorem filter_not_hasPath_self (A : SymbolDocument) :
    A.filter (fun t => !(hasPath A t.path)) = [] := by
  rw [List.filter_eq_nil_iff]
  intro a ha
  have h : hasPath A a.path = true := by
    simp only [hasPath, List.any_eq_true]
    exact ⟨a, ha, by simp⟩
  simp [h]

theorem changedPairs_self_eq_nil (A : SymbolDocument) :
    ∀ (suf pre : List Symbol) (seen : List String),
      A = pre ++ suf → (∀ x ∈ pre, x.path ∈ seen) →
      changedPairs suf A seen = [] := by
  intro suf
  induction suf with
  | nil => intro pre seen _ _; rfl
  | cons b bs ih =>
    intro pre seen hA hpre
    by_cases hb : b.path ∈ seen
    · rw [changedPairs, if_pos hb]
      refine ih (pre ++ [b]) seen (by simpa using hA) ?_
      intro x hx
      rcases List.mem_append.mp hx with h | h
      · exact hpre x h
      · simp only [List.mem_singleton] at h
        subst h; exact hb
    · rw [changedPairs, if_neg hb]
      have hfind : A.find? (fun t => t.path == b.path) = some b := by
        rw [hA]
        refine find?_append_cons_eq _ pre b bs ?_ (by simp)
        intro x hx
        have hxs := hpre x hx
        have hne : x.path ≠ b.path := fun he => hb (he ▸ hxs)
        simpa using hne
      rw [hfind]
      simp only [if_pos rfl]
      refine ih (pre ++ [b]) (b.path :: seen) (by simpa using hA) ?_
      intro x hx
      rcases List.mem_append.mp hx with h | h
      · exact List.mem_cons_of_mem _ (hpre x h)
      · simp only [List.mem_singleton] at h
        subst h; exact List.mem_cons_self _ _

/-- C7: diffing a document against itself yields an empty result: for every
`SymbolDocument` A, `PublicApiDiff.between A A` has empty added, removed
and changed sequences. -/
theorem diff_self_empty (A : SymbolDocument) :
    (PublicApiDiff.between A A).added = [] ∧
    (PublicApiDiff.between A A).removed = [] ∧
    (PublicApiDiff.between A A).changed = [] := by
  refine ⟨filter_not_hasPath_self A, filter_not_hasPath_self A, ?_⟩
  exact changedPairs_self_eq_nil A A [] [] rfl (by intro x hx; cases hx)

/-- C8: the result projection is a pure flattening of the diff: for every
`PublicApiDiff`, the projected `TemplateData`'s added and removed fields
are exactly the display-string renderings of the diff's added and removed
symbols in order, and each changed entry carries both the old and the new
symbol's display strings. -/
theorem mkTemplateData_flattens_diff (d : PublicApiDiff) :
    (mkTemplateData d).added = d.added.map Symbol.display ∧
    (mkTemplateData d).removed = d.removed.map Symbol.display ∧
    (mkTemplateData d).changed
      = d.changed.map (fun c => ChangedItem.mk c.old.display c.new.display) ∧
    (mkTemplateData d).changed.length = d.changed.length := by
  refine ⟨rfl, rfl, rfl, by simp [mkTemplateData]⟩

/-- C10: for a worktree destination path that is not valid UTF-8 (its
`to_str` is `none`), `build_pubapi_for_reference` returns an error before
spawning any git command: the executed-command trace is empty and the
repository state is unchanged. -/
theorem non_utf8_path_runs_no_command (env : BranchEnv) (reference : String)
    (st : RepoFsState) :
    (build_pubapi_for_reference env reference none).1
      = Except.error "Path is not UTF8" ∧
    (build_pubapi_for_reference env reference none).2 = [] ∧
    applyEvents st (build_pubapi_for_reference env reference none).2 = st :=
  ⟨rfl, rfl, rfl⟩

/-- C1: the code violates the frame property.  With every external step
succeeding and the caller's repository checked out at "main",
`build_pubapi_for_reference` for reference "v2.0.0" succeeds, yet the
caller's HEAD afterwards is "v2.0.0": the function runs
`git checkout v2.0.0` in the caller's repository directory
(src/src/main.rs lines 217-230), mutating the main working tree. -/
theorem checkout_mutates_caller_head :
    (build_pubapi_for_reference allOkBranchEnv "v2.0.0" (some "/tmp/wt/base")).1
      = Except.ok [] ∧
    applyEvents { head := "main", worktrees := [] }
        (build_pubapi_for_reference allOkBranchEnv "v2.0.0" (some "/tmp/wt/base")).2
      = { head := "v2.0.0", worktrees := [] } :=
  ⟨rfl, rfl⟩

/-- C2: cleanup is skipped on the checkout-failure path.  When the
worktree add succeeds but the subsequent `git checkout` fails,
`build_pubapi_for_reference` returns the checkout error without ever
executing `git worktree remove`, and the worktree directory remains under
the temporary root (src/src/main.rs line 228 returns before the removal
block at lines 241-254). -/
theorem checkout_failure_skips_cleanup :
    (build_pubapi_for_reference checkoutFailBranchEnv "feature" (some "/tmp/wt/base")).1
      = Except.error "git-checkout feature failed" ∧
    ((build_pubapi_for_reference checkoutFailBranchEnv "feature" (some "/tmp/wt/base")).2.all
        (fun e => match e with | Event.gitWorktreeRemove _ _ => false | _ => true))
      = true ∧
    (applyEvents { head := "main", worktrees := [] }
        (build_pubapi_for_reference checkoutFailBranchEnv "feature" (some "/tmp/wt/base")).2).worktrees
      = ["/tmp/wt/base"] :=
  ⟨rfl, rfl, rfl⟩

/-- C3 counterexample: with an empty (invalid) base reference, the run
does not fail before filesystem work: the temporary directory is created
and both worker threads are spawned, and the failure is the worktree-add
error from inside the branch task, not an upfront invalid-reference
error. -/
theorem no_upfront_validation_counterexample :
    (mainRun (plumbingOkEnv invalidRefBranchEnv allOkBranchEnv)
        { base := "", target := "main", output := none, tempdir := none }).result
      = Except.error "git-worktree /tmp/gen/base  failed" ∧
    ((mainRun (plumbingOkEnv invalidRefBranchEnv allOkBranchEnv)
        { base := "", target := "main", output := none, tempdir := none }).events.contains
      MEvent.createTempdir) = true ∧
    ((mainRun (plumbingOkEnv invalidRefBranchEnv allOkBranchEnv)
        { base := "", target := "main", output := none, tempdir := none }).events.contains
      MEvent.spawnBase) = true :=
  ⟨rfl, rfl, rfl⟩

/-- C3 (amended): no upfront validation of reference names exists.  A run
whose base reference is invalid (git rejects it at the worktree-add step)
still fails, but only with the worktree-add error from inside the branch
task, after the temporary directory has been created and the worker
threads spawned. -/
theorem invalid_reference_fails_after_tempdir (env : MainEnv) (args : Args)
    (hread : env.templateReadOk = true)
    (hreg : env.templateRegisterOk = true)
    (hout : args.output = none)
    (htd : args.tempdir = none)
    (htdok : env.tempdirCreateOk = true)
    (hadd : env.baseEnv.addRes = CmdResult.exitFail)
    (hjoin : env.baseJoinOk = true) :
    (mainRun env args).result
      = Except.error
          ("git-worktree " ++ (env.generatedTempdir ++ "/base") ++ " " ++ args.base ++ " failed") ∧
    MEvent.createTempdir ∈ (mainRun env args).events ∧
    MEvent.spawnBase ∈ (mainRun env args).events := by
  simp [mainRun, mainAfterOpen, mainWithTempdir, build_pubapi_for_reference,
    runGitCmd, joinThread, hread, hreg, hout, htd, htdok, hadd, hjoin]

theorem invalid_reference_fails_after_tempdir_witness :
    (mainRun (plumbingOkEnv invalidRefBranchEnv allOkBranchEnv)
        { base := "v9", target := "main", output := none, tempdir := none }).result
      = Except.error ("git-worktree " ++ ("/tmp/gen" ++ "/base") ++ " " ++ "v9" ++ " failed") ∧
    MEvent.createTempdir ∈ (mainRun (plumbingOkEnv invalidRefBranchEnv allOkBranchEnv)
        { base := "v9", target := "main", output := none, tempdir := none }).events ∧
    MEvent.spawnBase ∈ (mainRun (plumbingOkEnv invalidRefBranchEnv allOkBranchEnv)
        { base := "v9", target := "main", output := none, tempdir := none }).events :=
  invalid_reference_fails_after_tempdir (plumbingOkEnv invalidRefBranchEnv allOkBranchEnv)
    { base := "v9", target := "main", output := none, tempdir := none }
    rfl rfl rfl rfl rfl rfl rfl

/-- C4 counterexample: with both branch tasks failing, the run reports the
base task's failure, but the target task's failure is silently dropped:
the target thread is never joined (the try operator on the base join
returns from `main` first), so its error — which the third conjunct shows
does occur — is neither logged nor attached. -/
theorem both_fail_target_error_dropped :
    (mainRun (plumbingOkEnv invalidRefBranchEnv invalidRefBranchEnv)
        { base := "baseref", target := "targetref", output := none, tempdir := none }).result
      = Except.error "git-worktree /tmp/gen/base baseref failed" ∧
    ((mainRun (plumbingOkEnv invalidRefBranchEnv invalidRefBranchEnv)
        { base := "baseref", target := "targetref", output := none, tempdir := none }).events.contains
      MEvent.joinTarget) = false ∧
    (build_pubapi_for_reference invalidRefBranchEnv "targetref" (some "/tmp/gen/target")).1
      = Except.error "git-worktree /tmp/gen/target targetref failed" :=
  ⟨rfl, rfl, rfl⟩

/-- C4 (amended): when both branch tasks fail, the run reports the base
task's failure (deterministic priority), but the target task's failure is
silently dropped: the target thread is never joined, so its error — which
also occurs, as the last conjunct shows — is neither logged nor attached
to the reported error. -/
theorem both_fail_reports_base_drops_target (env : MainEnv) (args : Args)
    (hread : env.templateReadOk = true)
    (hreg : env.templateRegisterOk = true)
    (hout : args.output = none)
    (htd : args.tempdir = none)
    (htdok : env.tempdirCreateOk = true)
    (hadd : env.baseEnv.addRes = CmdResult.exitFail)
    (hjoin : env.baseJoinOk = true)
    (htadd : env.targetEnv.addRes = CmdResult.exitFail) :
    (mainRun env args).result
      = Except.error
          ("git-worktree " ++ (env.generatedTempdir ++ "/base") ++ " " ++ args.base ++ " failed") ∧
    MEvent.joinTarget ∉ (mainRun env args).events ∧
    (build_pubapi_for_reference env.targetEnv args.target
        (some (env.generatedTempdir ++ "/target"))).1
      = Except.error
          ("git-worktree " ++ (env.generatedTempdir ++ "/target") ++ " " ++ args.target ++ " failed") := by
  simp [mainRun, mainAfterOpen, mainWithTempdir, build_pubapi_for_reference,
    runGitCmd, joinThread, hread, hreg, hout, htd, htdok, hadd, hjoin, htadd]

theorem both_fail_reports_base_drops_target_witness :
    (mainRun (plumbingOkEnv invalidRefBranchEnv invalidRefBranchEnv)
        { base := "b1", target := "t1", output := none, tempdir := none }).result
      = Except.error ("git-worktree " ++ ("/tmp/gen" ++ "/base") ++ " " ++ "b1" ++ " failed") ∧
    MEvent.joinTarget ∉ (mainRun (plumbingOkEnv invalidRefBranchEnv invalidRefBranchEnv)
        { base := "b1", target := "t1", output := none, tempdir := none }).events ∧
    (build_pubapi_for_reference invalidRefBranchEnv "t1" (some ("/tmp/gen" ++ "/target"))).1
      = Except.error ("git-worktree " ++ ("/tmp/gen" ++ "/target") ++ " " ++ "t1" ++ " failed") :=
  both_fail_reports_base_drops_target (plumbingOkEnv invalidRefBranchEnv invalidRefBranchEnv)
    { base := "b1", target := "t1", output := none, tempdir := none }
    rfl rfl rfl rfl rfl rfl rfl rfl

theorem diffJoins_cons {e : MEvent} {evs : List MEvent}
    (hne : e ≠ MEvent.runDiff)
    (h : MEvent.runDiff ∈ evs → MEvent.joinBase ∈ evs ∧ MEvent.joinTarget ∈ evs) :
    MEvent.runDiff ∈ e :: evs →
    MEvent.joinBase ∈ e :: evs ∧ MEvent.joinTarget ∈ e :: evs := by
  intro hd
  rcases List.mem_cons.mp hd with h1 | h1
  · exact absurd h1.symm hne
  · rcases h h1 with ⟨ha, hb⟩
    exact ⟨List.mem_cons_of_mem _ ha, List.mem_cons_of_mem _ hb⟩

theorem mainWithTempdir_diff_after_joins (env : MainEnv) (args : Args)
    (outputOpened : Option String) (modified : Bool) (td : String) :
    MEvent.runDiff ∈ (mainWithTempdir env args outputOpened modified td).events →
    MEvent.joinBase ∈ (mainWithTempdir env args outputOpened modified td).events ∧
    MEvent.joinTarget ∈ (mainWithTempdir env args outputOpened modified td).events := by
  simp only [mainWithTempdir]
  cases hb : joinThread env.baseJoinOk
      (build_pubapi_for_reference env.baseEnv args.base (some (td ++ "/base"))).1 with
  | error e => simp [hb]
  | ok bdoc =>
    cases ht : joinThread env.targetJoinOk
        (build_pubapi_for_reference env.targetEnv args.target (some (td ++ "/target"))).1 with
    | error e => simp [hb, ht]
    | ok tdoc =>
      cases hr : env.renderOk with
      | false => simp [hb, ht, hr]
      | true =>
        cases outputOpened with
        | none => cases hw : env.writeOk <;> simp [hb, ht, hr, hw]
        | some p => cases hw : env.writeOk <;> simp [hb, ht, hr, hw]

theorem mainAfterOpen_diff_after_joins (env : MainEnv) (args : Args)
    (outputOpened : Option String) (modified : Bool) :
    MEvent.runDiff ∈ (mainAfterOpen env args outputOpened modified).events →
    MEvent.joinBase ∈ (mainAfterOpen env args outputOpened modified).events ∧
    MEvent.joinTarget ∈ (mainAfterOpen env args outputOpened modified).events := by
  cases htd : args.tempdir with
  | some td =>
    simpa [mainAfterOpen, htd] using
      mainWithTempdir_diff_after_joins env args outputOpened modified td
  | none =>
    cases hc : env.tempdirCreateOk with
    | false => simp [mainAfterOpen, htd, hc]
    | true =>
      simpa [mainAfterOpen, htd, hc] using
        mainWithTempdir_diff_after_joins env args outputOpened modified env.generatedTempdir

theorem mainRun_diff_after_joins (env : MainEnv) (args : Args) :
    MEvent.runDiff ∈ (mainRun env args).events →
    MEvent.joinBase ∈ (mainRun env args).events ∧
    MEvent.joinTarget ∈ (mainRun env args).events := by
  cases hr : env.templateReadOk with
  | false => simp [mainRun, hr]
  | true =>
    cases hg : env.templateRegisterOk with
    | false => simp [mainRun, hr, hg]
    | true =>
      cases ho : args.output with
      | some p =>
        simp [mainRun, hr, hg, ho, outputOpenOptions, OpenOptions.openFile]
      | none =>
        simpa [mainRun, hr, hg, ho] using
          mainAfterOpen_diff_after_joins env args none false

/-- C5 counterexample: when the base branch fails (its extraction fails),
`main` returns without ever joining the target task: the target thread was
spawned but `joinTarget` never happens, its handle being dropped by the
early return on the base join. -/
theorem base_failure_skips_target_join :
    ((mainRun (plumbingOkEnv extractFailBranchEnv allOkBranchEnv)
        { base := "b", target := "t", output := none, tempdir := none }).events.contains
      MEvent.spawnTarget) = true ∧
    ((mainRun (plumbingOkEnv extractFailBranchEnv allOkBranchEnv)
        { base := "b", target := "t", output := none, tempdir := none }).events.contains
      MEvent.joinTarget) = false ∧
    (mainRun (plumbingOkEnv extractFailBranchEnv allOkBranchEnv)
        { base := "b", target := "t", output := none, tempdir := none }).result
      = Except.error "rustdoc-json build failed" :=
  ⟨rfl, rfl, rfl⟩

/-- C5 (amended): the diff step never starts before both branch tasks have
been joined (first conjunct, for every run); but when the base task fails,
`main` returns immediately without joining the target task: `joinTarget`
never occurs and the base error is reported (second conjunct). -/
theorem diff_waits_for_joins_but_base_failure_skips_target (env : MainEnv) (args : Args) :
    (MEvent.runDiff ∈ (mainRun env args).events →
      MEvent.joinBase ∈ (mainRun env args).events ∧
      MEvent.joinTarget ∈ (mainRun env args).events) ∧
    (∀ msg : String,
      env.templateReadOk = true → env.templateRegisterOk = true →
      args.output = none → args.tempdir = none → env.tempdirCreateOk = true →
      joinThread env.baseJoinOk
          (build_pubapi_for_reference env.baseEnv args.base
            (some (env.generatedTempdir ++ "/base"))).1 = Except.error msg →
      MEvent.joinTarget ∉ (mainRun env args).events ∧
      (mainRun env args).result = Except.error msg) := by
  constructor
  · exact mainRun_diff_after_joins env args
  · intro msg hread hreg hout htd htdok hbase
    simp [mainRun, mainAfterOpen, mainWithTempdir, hread, hreg, hout, htd, htdok, hbase]

theorem diff_waits_for_joins_but_base_failure_skips_target_witness :
    MEvent.joinTarget ∉ (mainRun (plumbingOkEnv extractFailBranchEnv allOkBranchEnv)
        { base := "b", target := "t", output := none, tempdir := none }).events ∧
    (mainRun (plumbingOkEnv extractFailBranchEnv allOkBranchEnv)
        { base := "b", target := "t", output := none, tempdir := none }).result
      = Except.error "rustdoc-json build failed" :=
  (diff_waits_for_joins_but_base_failure_skips_target
      (plumbingOkEnv extractFailBranchEnv allOkBranchEnv)
      { base := "b", target := "t", output := none, tempdir := none }).2
    "rustdoc-json build failed" rfl rfl rfl rfl rfl rfl

/-- C6: when an explicit output destination is given and a file already
exists at that path, the run fails and the existing file is left
unmodified: the open call (with `create_new` set) fails without touching
the file, so the program never silently overwrites an existing output
destination. -/
theorem existing_output_never_overwritten (env : MainEnv) (args : Args) (p : String)
    (hout : args.output = some p) (_hex : env.outputExists = true) :
    (mainRun env args).result.isOk = false ∧
    (mainRun env args).outputFileModified = false := by
  cases hr : env.templateReadOk with
  | false => simp [mainRun, hr, Except.isOk, Except.toBool]
  | true =>
    cases hg : env.templateRegisterOk with
    | false => simp [mainRun, hr, hg, Except.isOk, Except.toBool]
    | true => simp [mainRun, hr, hg, hout, outputOpenOptions, OpenOptions.openFile, Except.isOk, Except.toBool]

theorem existing_output_never_overwritten_witness :
    (mainRun { plumbingOkEnv allOkBranchEnv allOkBranchEnv with outputExists := true }
        { base := "b", target := "t", output := some "out.md", tempdir := none }).result.isOk
      = false ∧
    (mainRun { plumbingOkEnv allOkBranchEnv allOkBranchEnv with outputExists := true }
        { base := "b", target := "t", output := some "out.md", tempdir := none }).outputFileModified
      = false :=
  existing_output_never_overwritten
    { plumbingOkEnv allOkBranchEnv allOkBranchEnv with outputExists := true }
    { base := "b", target := "t", output := some "out.md", tempdir := none }
    "out.md" rfl rfl

/-- C9: the output file is opened with `create_new` set but with no write
or append access mode, so the open call returns the standard library's
invalid-input error regardless of whether the path exists, and a run with
an explicit output path always fails without ever writing the output
file. -/
theorem output_open_always_fails (env : MainEnv) (args : Args) (p : String) (b : Bool)
    (hout : args.output = some p) :
    (outputOpenOptions.openFile b).1
      = Except.error "invalid input: creation or truncation without write access" ∧
    (mainRun env args).result.isOk = false ∧
    MEvent.writeOutputFile p ∉ (mainRun env args).events ∧
    (mainRun env args).outputFileModified = false := by
  refine ⟨by simp [outputOpenOptions, OpenOptions.openFile], ?_⟩
  cases hr : env.templateReadOk with
  | false => simp [mainRun, hr, Except.isOk, Except.toBool]
  | true =>
    cases hg : env.templateRegisterOk with
    | false => simp [mainRun, hr, hg, Except.isOk, Except.toBool]
    | true => simp [mainRun, hr, hg, hout, outputOpenOptions, OpenOptions.openFile, Except.isOk, Except.toBool]

theorem output_open_always_fails_witness :
    (outputOpenOptions.openFile false).1
      = Except.error "invalid input: creation or truncation without write access" ∧
    (mainRun (plumbingOkEnv allOkBranchEnv allOkBranchEnv)
        { base := "b", target := "t", output := some "out.md", tempdir := none }).result.isOk
      = false ∧
    MEvent.writeOutputFile "out.md" ∉ (mainRun (plumbingOkEnv allOkBranchEnv allOkBranchEnv)
        { base := "b", target := "t", output := some "out.md", tempdir := none }).events ∧
    (mainRun (plumbingOkEnv allOkBranchEnv allOkBranchEnv)
        { base := "b", target := "t", output := some "out.md", tempdir := none }).outputFileModified
      = false :=
  output_open_always_fails (plumbingOkEnv allOkBranchEnv allOkBranchEnv)
    { base := "b", target := "t", output := some "out.md", tempdir := none }
    "out.md" false rfl

end ApiDiffComment
